import Mathlib

/-!
Verification of the import-panel state machine of
`src/frontend/src/components/unified-input/tabs/ImportTab.tsx`.

The component owns five pieces of mutable state (`code`, `url`, `stack`,
`isDraggingFile`, `isScraping`) and four handlers (`doImport`, `doScrape`,
`handleKeyDown`, the dropzone `onDrop`).  Each handler is embedded as a pure
function from the state (plus the external inputs it consumes: the fetch
outcome, the key event, the dropped files) to the updated state together with
the list of observable effects it emits, in order: toast notifications, the
`importFromCode` collaborator callback, the scrape request dispatch, and the
busy-flag (`isScraping`) transitions.
-/

/-- Modelled from the spec: the `Stack` type is imported from
`../../../lib/stacks`, which is not part of this repository snapshot.  The spec
describes it as "an opaque enumerated identifier naming a target
code-generation stack (one of a fixed closed set)"; the component itself only
names `Stack.HTML_TAILWIND` (the mount-time default).  We model it as an
enumerated identifier with the named default plus opaque further members. -/
inductive Stack where
  | HTML_TAILWIND : Stack
  | OTHER : Nat → Stack
deriving DecidableEq, Repr

/-- The component state: `code` (the text buffer, `useState("")`), `url`
(the scrape URL input, `useState("")`), `stack` (`useState<Stack | undefined>`),
`isDraggingFile` and `isScraping` (both `useState(false)`).
From lines 16-21 of `ImportTab.tsx`. -/
structure ImportState where
  code : String
  url : String
  stack : Option Stack
  isDraggingFile : Bool
  isScraping : Bool
deriving DecidableEq, Repr

/-- The initial state at component mount (lines 16-21):
`code = ""`, `url = ""`, `stack = Stack.HTML_TAILWIND`, flags false. -/
def initialState : ImportState :=
  { code := "", url := "", stack := some Stack.HTML_TAILWIND,
    isDraggingFile := false, isScraping := false }

/-- Observable effects emitted by the handlers, in emission order:
`toastError m` and `toastSuccess m` are `toast.error(m)` / `toast.success(m)`;
`importFromCode c st` is the collaborator callback invocation;
`request u` is the dispatch of the POST to `/api/scrape-url` with JSON body
`\x7b url: u \x7d`; `setBusy b` is `setIsScraping(b)`. -/
inductive Ev where
  | toastError : String → Ev
  | toastSuccess : String → Ev
  | importFromCode : String → Stack → Ev
  | request : String → Ev
  | setBusy : Bool → Ev
deriving DecidableEq, Repr

/-- `doImport` (lines 27-39): reject an empty buffer, then an undefined stack,
else invoke `importFromCode(code, stack)`.  The state is never mutated. -/
def doImport (s : ImportState) : ImportState × List Ev :=
  if s.code = "" then
    (s, [Ev.toastError "Please paste in some code"])
  else
    match s.stack with
    | none => (s, [Ev.toastError "Please select your stack"])
    | some st => (s, [Ev.importFromCode s.code st])

/-- The value found at the `content` field of a parsed scrape-success body:
either a JavaScript string or some non-string JSON value.  The guard
`!content || typeof content !== "string"` (line 60) accepts exactly a
non-empty string, so non-string values need no further structure. -/
inductive ContentVal where
  | str : String → ContentVal
  | nonString : ContentVal
deriving DecidableEq, Repr

/-- Outcome of `response.json()` on the response body.  `unparseable m` means
the promise rejects (with a `SyntaxError` whose `message` is `m`): in the
non-ok branch the rejection is absorbed by `.catch(() => (\x7b detail:
response.statusText \x7d))` (line 55), in the ok branch it propagates to the
outer `catch` (line 66).  `obj detail content` is a parsed object with its
optional string `detail` field and optional `content` field. -/
inductive ParsedBody where
  | unparseable : String → ParsedBody
  | obj : Option String → Option ContentVal → ParsedBody
deriving DecidableEq, Repr

/-- The fetch `Response` as consumed by `doScrape`: the `ok` flag, the
`statusText`, and the (single) body parse outcome. -/
structure Response where
  ok : Bool
  statusText : String
  body : ParsedBody
deriving DecidableEq, Repr

/-- A value thrown by `fetch` itself (network failure, abort, ...):
either an `Error` instance carrying its `message`, or a non-`Error` value.
Used by the `e instanceof Error ? e.message : "Failed to scrape URL"`
discrimination on line 67. -/
inductive FetchExc where
  | isError : String → FetchExc
  | notError : FetchExc
deriving DecidableEq, Repr

/-- The outcome of the awaited `fetch` call: a thrown value or a response. -/
inductive FetchOutcome where
  | throws : FetchExc → FetchOutcome
  | resp : Response → FetchOutcome
deriving DecidableEq, Repr

/-- Line 67: `e instanceof Error ? e.message : "Failed to scrape URL"`. -/
def excMessage : FetchExc → String
  | FetchExc.isError m => m
  | FetchExc.notError => "Failed to scrape URL"

/-- The embedding of JavaScript `String.prototype.trim()` (line 42):
removes leading and trailing whitespace.  Written by structural recursion on
the character list so that concrete instances evaluate inside proofs. -/
def jsTrim (s : String) : String :=
  String.mk (((s.data.dropWhile Char.isWhitespace).reverse.dropWhile
      Char.isWhitespace).reverse)

/-- `doScrape` (lines 41-71).  Trims the URL and rejects an empty result;
otherwise sets `isScraping := true`, dispatches the request, and handles the
outcome inside `try/catch/finally`:
non-ok status yields `toast.error(err.detail || "Failed to scrape URL")`
where `err` is the parsed body or `\x7b detail: statusText \x7d` on parse
failure (lines 54-58); an ok status requires `content` to be a non-empty
string, else `toast.error("Invalid response from server")` (lines 59-63);
on acceptance `setCode(content)` and a success toast (lines 64-65); a thrown
value reaches the `catch` (lines 66-67); the `finally` (lines 68-70) resets
`isScraping := false` on every path past the URL check. -/
def doScrape (s : ImportState) (fetch : FetchOutcome) : ImportState × List Ev :=
  let trimmedUrl := jsTrim s.url
  if trimmedUrl = "" then
    (s, [Ev.toastError "Please enter a URL to scrape"])
  else
    let pre : List Ev := [Ev.setBusy true, Ev.request trimmedUrl]
    match fetch with
    | FetchOutcome.throws e =>
        ({ s with isScraping := false },
         pre ++ [Ev.toastError (excMessage e), Ev.setBusy false])
    | FetchOutcome.resp r =>
        if r.ok = false then
          let detail : Option String :=
            match r.body with
            | ParsedBody.unparseable _ => some r.statusText
            | ParsedBody.obj d _ => d
          let msg : String :=
            match detail with
            | some m => if m = "" then "Failed to scrape URL" else m
            | none => "Failed to scrape URL"
          ({ s with isScraping := false },
           pre ++ [Ev.toastError msg, Ev.setBusy false])
        else
          match r.body with
          | ParsedBody.unparseable m =>
              ({ s with isScraping := false },
               pre ++ [Ev.toastError m, Ev.setBusy false])
          | ParsedBody.obj _ content =>
              match content with
              | some (ContentVal.str c) =>
                  if c = "" then
                    ({ s with isScraping := false },
                     pre ++ [Ev.toastError "Invalid response from server",
                             Ev.setBusy false])
                  else
                    ({ s with code := c, isScraping := false },
                     pre ++ [Ev.toastSuccess "Full HTML scraped. Review below and click Import Code when ready.",
                             Ev.setBusy false])
              | _ =>
                  ({ s with isScraping := false },
                   pre ++ [Ev.toastError "Invalid response from server",
                           Ev.setBusy false])

/-- The keyboard event fields read by `handleKeyDown`. -/
structure KeyEvent where
  key : String
  metaKey : Bool
  ctrlKey : Bool
deriving DecidableEq, Repr

/-- `handleKeyDown` (lines 73-78): Cmd/Ctrl + Enter triggers `doImport`,
anything else is a no-op. -/
def handleKeyDown (s : ImportState) (e : KeyEvent) : ImportState × List Ev :=
  if e.key = "Enter" ∧ (e.metaKey = true ∨ e.ctrlKey = true) then
    doImport s
  else
    (s, [])

/-- The dropzone `onDrop` (lines 89-96), with accepted files modelled by their
full text contents (`file.text()`): clear the dragging flag, take the first
accepted file if any, and replace the buffer with its contents.  The timed
focus restoration (line 95) is presentation-only and has no state effect. -/
def onDrop (s : ImportState) (acceptedFiles : List String) : ImportState × List Ev :=
  let s0 : ImportState := { s with isDraggingFile := false }
  match acceptedFiles with
  | [] => (s0, [])
  | contents :: _ => ({ s0 with code := contents }, [])

/-- The textarea `onChange` handler (line 163, also the paste path):
`setCode(e.target.value)`. -/
def onCodeChange (s : ImportState) (v : String) : ImportState × List Ev :=
  ({ s with code := v }, [])

/-! ## Helper lemmas (shared) -/

/-- Once past the URL-emptiness check, `doScrape` always emits exactly four
events: busy-on, the request with the trimmed URL, one toast, busy-off; and
the final state has the busy flag cleared (the `finally` block). -/
theorem doScrape_events_shape (s : ImportState) (fetch : FetchOutcome)
    (h : jsTrim s.url ≠ "") :
    ∃ t, (doScrape s fetch).2 =
        [Ev.setBusy true, Ev.request (jsTrim s.url), t, Ev.setBusy false] ∧
      (∃ m, t = Ev.toastError m ∨ t = Ev.toastSuccess m) ∧
      (doScrape s fetch).1.isScraping = false := by
  unfold doScrape
  rw [if_neg h]
  cases fetch with
  | throws e => exact ⟨_, rfl, ⟨_, Or.inl rfl⟩, rfl⟩
  | resp r =>
    rcases r with ⟨ok, statusText, body⟩
    cases ok with
    | false =>
      cases body with
      | unparseable m => exact ⟨_, rfl, ⟨_, Or.inl rfl⟩, rfl⟩
      | obj d content =>
        cases d with
        | none => exact ⟨_, rfl, ⟨_, Or.inl rfl⟩, rfl⟩
        | some m => exact ⟨_, rfl, ⟨_, Or.inl rfl⟩, rfl⟩
    | true =>
      cases body with
      | unparseable m => exact ⟨_, rfl, ⟨_, Or.inl rfl⟩, rfl⟩
      | obj d content =>
        match content with
        | none => exact ⟨_, rfl, ⟨_, Or.inl rfl⟩, rfl⟩
        | some ContentVal.nonString => exact ⟨_, rfl, ⟨_, Or.inl rfl⟩, rfl⟩
        | some (ContentVal.str c) =>
          dsimp only
          by_cases hc : c = ""
          · rw [if_pos hc]
            exact ⟨_, rfl, ⟨_, Or.inl rfl⟩, rfl⟩
          · rw [if_neg hc]
            exact ⟨_, rfl, ⟨_, Or.inr rfl⟩, rfl⟩

/-! ## Claim theorems -/

/-- C1: for every state with a non-empty text buffer and a defined stack,
`doImport` invokes `importFromCode` exactly once, synchronously, with exactly
that buffer and stack, and mutates no state. -/
theorem doImport_invokes_callback (s : ImportState) (st : Stack)
    (hcode : s.code ≠ "") (hstack : s.stack = some st) :
    doImport s = (s, [Ev.importFromCode s.code st]) := by
  unfold doImport
  rw [if_neg hcode, hstack]

/-- Witness for C1 at a concrete state. -/
theorem doImport_invokes_callback_witness :
    ({ code := "<p>hi</p>", url := "", stack := some Stack.HTML_TAILWIND,
       isDraggingFile := false, isScraping := false } : ImportState).code ≠ "" ∧
    doImport { code := "<p>hi</p>", url := "", stack := some Stack.HTML_TAILWIND,
               isDraggingFile := false, isScraping := false } =
      ({ code := "<p>hi</p>", url := "", stack := some Stack.HTML_TAILWIND,
         isDraggingFile := false, isScraping := false },
       [Ev.importFromCode "<p>hi</p>" Stack.HTML_TAILWIND]) :=
  ⟨by decide, doImport_invokes_callback _ Stack.HTML_TAILWIND (by decide) rfl⟩

/-- C3: an empty buffer is rejected with "Please paste in some code"
regardless of the stack and without side effects; a non-empty buffer with an
undefined stack is rejected with "Please select your stack" without side
effects — so the emptiness check runs first. -/
theorem doImport_validation_order (s : ImportState) :
    (s.code = "" →
      doImport s = (s, [Ev.toastError "Please paste in some code"])) ∧
    (s.code ≠ "" → s.stack = none →
      doImport s = (s, [Ev.toastError "Please select your stack"])) := by
  constructor
  · intro h
    unfold doImport
    rw [if_pos h]
  · intro h hs
    unfold doImport
    rw [if_neg h, hs]

/-- Witness for C3: both rejection branches at concrete states (the first one
with a defined stack, showing the emptiness check fires first). -/
theorem doImport_validation_order_witness :
    doImport { code := "", url := "", stack := some Stack.HTML_TAILWIND,
               isDraggingFile := false, isScraping := false } =
      ({ code := "", url := "", stack := some Stack.HTML_TAILWIND,
         isDraggingFile := false, isScraping := false },
       [Ev.toastError "Please paste in some code"]) ∧
    doImport { code := "x", url := "", stack := none,
               isDraggingFile := false, isScraping := false } =
      ({ code := "x", url := "", stack := none,
         isDraggingFile := false, isScraping := false },
       [Ev.toastError "Please select your stack"]) :=
  ⟨(doImport_validation_order _).1 rfl,
   (doImport_validation_order _).2 (by decide) rfl⟩

/-- C10: a buffer consisting only of whitespace characters is treated as
non-empty (the check is `code === ""`, with no trimming), so with a defined
stack the callback is invoked with that whitespace string. -/
theorem doImport_whitespace_buffer (s : ImportState) (st : Stack)
    (hne : s.code ≠ "") (hws : ∀ c ∈ s.code.data, c.isWhitespace)
    (hstack : s.stack = some st) :
    doImport s = (s, [Ev.importFromCode s.code st]) := by
  unfold doImport
  rw [if_neg hne, hstack]

/-- Witness for C10 at the buffer consisting of a single space. -/
theorem doImport_whitespace_buffer_witness :
    (∀ c ∈ (" " : String).data, c.isWhitespace) ∧
    doImport { code := " ", url := "", stack := some Stack.HTML_TAILWIND,
               isDraggingFile := false, isScraping := false } =
      ({ code := " ", url := "", stack := some Stack.HTML_TAILWIND,
         isDraggingFile := false, isScraping := false },
       [Ev.importFromCode " " Stack.HTML_TAILWIND]) :=
  ⟨by decide,
   doImport_whitespace_buffer _ Stack.HTML_TAILWIND (by decide) (by decide) rfl⟩

/-- C9: whenever the shortcut fires (key is Enter and Cmd or Ctrl is held),
`handleKeyDown` performs exactly `doImport` — identical checks,
notifications, callback invocation and state. -/
theorem handleKeyDown_refines_doImport (s : ImportState) (e : KeyEvent)
    (hk : e.key = "Enter") (hm : e.metaKey = true ∨ e.ctrlKey = true) :
    handleKeyDown s e = doImport s := by
  unfold handleKeyDown
  rw [if_pos ⟨hk, hm⟩]

/-- Witness for C9 at a concrete state and Ctrl+Enter event. -/
theorem handleKeyDown_refines_doImport_witness :
    handleKeyDown
      { code := "<p>hi</p>", url := "", stack := some Stack.HTML_TAILWIND,
        isDraggingFile := false, isScraping := false }
      { key := "Enter", metaKey := false, ctrlKey := true } =
    doImport
      { code := "<p>hi</p>", url := "", stack := some Stack.HTML_TAILWIND,
        isDraggingFile := false, isScraping := false } :=
  handleKeyDown_refines_doImport _ _ rfl (Or.inr rfl)

/-- C8: `onDrop` reads at most the first accepted file; a non-empty sequence
replaces the whole buffer with exactly the first file's text, an empty
sequence leaves the buffer unchanged. -/
theorem onDrop_first_file (s : ImportState) (files : List String) :
    (files = [] →
      onDrop s files = ({ s with isDraggingFile := false }, []) ∧
      (onDrop s files).1.code = s.code) ∧
    (∀ c rest, files = c :: rest →
      onDrop s files = ({ s with isDraggingFile := false, code := c }, [])) := by
  constructor
  · intro h
    subst h
    exact ⟨rfl, rfl⟩
  · intro c rest h
    subst h
    rfl

/-- Witness for C8: dropping one file containing the text of a small HTML
fragment replaces the buffer with exactly it; dropping zero files leaves the
buffer unchanged. -/
theorem onDrop_first_file_witness :
    onDrop initialState ["<p>hi</p>"] =
      ({ initialState with isDraggingFile := false, code := "<p>hi</p>" }, []) ∧
    (onDrop initialState []).1.code = initialState.code :=
  ⟨(onDrop_first_file initialState ["<p>hi</p>"]).2 "<p>hi</p>" [] rfl,
   ((onDrop_first_file initialState []).1 rfl).2⟩

/-- C2: past the URL check, `doScrape` leaves the busy flag false on every
outcome; busy-on immediately precedes the request dispatch and busy-off is
the final event, with no busy transition in between; and neither the paste
path (`onCodeChange`) nor the drop path ever touches the busy flag. -/
theorem doScrape_busy_flag (s : ImportState) (fetch : FetchOutcome)
    (h : jsTrim s.url ≠ "") :
    (doScrape s fetch).1.isScraping = false ∧
    (∃ mid, (doScrape s fetch).2 =
        Ev.setBusy true :: Ev.request (jsTrim s.url) :: (mid ++ [Ev.setBusy false]) ∧
        ∀ b, Ev.setBusy b ∉ mid) ∧
    (∀ t v, (onCodeChange t v).1.isScraping = t.isScraping ∧
        ∀ b, Ev.setBusy b ∉ (onCodeChange t v).2) ∧
    (∀ t fs, (onDrop t fs).1.isScraping = t.isScraping ∧
        ∀ b, Ev.setBusy b ∉ (onDrop t fs).2) := by
  obtain ⟨t, hev, ⟨m, hm⟩, hbusy⟩ := doScrape_events_shape s fetch h
  refine ⟨hbusy, ⟨[t], by rw [hev]; rfl, ?_⟩, ?_, ?_⟩
  · intro b hb
    rcases List.mem_singleton.mp hb with rfl
    rcases hm with hm | hm <;> simp at hm
  · intro t v
    exact ⟨rfl, by intro b hb; simp [onCodeChange] at hb⟩
  · intro t fs
    cases fs with
    | nil => exact ⟨rfl, by intro b hb; simp [onDrop] at hb⟩
    | cons c rest => exact ⟨rfl, by intro b hb; simp [onDrop] at hb⟩

/-- Witness for C2 at a concrete state and a thrown network error. -/
theorem doScrape_busy_flag_witness :
    jsTrim "http://x" ≠ "" ∧
    (doScrape { code := "", url := "http://x", stack := some Stack.HTML_TAILWIND,
                isDraggingFile := false, isScraping := false }
       (FetchOutcome.throws (FetchExc.isError "boom"))).1.isScraping = false :=
  ⟨by decide,
   (doScrape_busy_flag _ (FetchOutcome.throws (FetchExc.isError "boom"))
      (by decide)).1⟩

/-- C4: an ok response whose parsed body carries a non-empty string `content`
replaces the whole buffer with exactly that string and fires the success
toast (and nothing else besides the request and busy transitions). -/
theorem doScrape_success_replaces_buffer (s : ImportState) (r : Response)
    (d : Option String) (c : String)
    (hurl : jsTrim s.url ≠ "") (hok : r.ok = true)
    (hbody : r.body = ParsedBody.obj d (some (ContentVal.str c))) (hc : c ≠ "") :
    doScrape s (FetchOutcome.resp r) =
      ({ s with code := c, isScraping := false },
       [Ev.setBusy true, Ev.request (jsTrim s.url),
        Ev.toastSuccess "Full HTML scraped. Review below and click Import Code when ready.",
        Ev.setBusy false]) := by
  unfold doScrape
  rw [if_neg hurl]
  rcases r with ⟨ok, statusText, body⟩
  dsimp only at hok hbody
  subst hok
  subst hbody
  dsimp only
  rw [if_neg hc]
  exact if_neg (by decide)

/-- Witness for C4 with a concrete scraped document. -/
theorem doScrape_success_replaces_buffer_witness :
    doScrape { code := "old", url := "http://x", stack := some Stack.HTML_TAILWIND,
               isDraggingFile := false, isScraping := false }
      (FetchOutcome.resp { ok := true, statusText := "OK",
                           body := ParsedBody.obj none (some (ContentVal.str "<html>hi</html>")) }) =
      ({ code := "<html>hi</html>", url := "http://x", stack := some Stack.HTML_TAILWIND,
         isDraggingFile := false, isScraping := false },
       [Ev.setBusy true, Ev.request "http://x",
        Ev.toastSuccess "Full HTML scraped. Review below and click Import Code when ready.",
        Ev.setBusy false]) :=
  doScrape_success_replaces_buffer _ _ none "<html>hi</html>"
    (by decide) rfl rfl (by decide)

/-- C5: an ok response whose parsed body has no `content` field, a non-string
`content`, or an empty-string `content`, leaves the buffer unchanged and
fires the failure toast "Invalid response from server". -/
theorem doScrape_invalid_content (s : ImportState) (r : Response)
    (d : Option String) (content : Option ContentVal)
    (hurl : jsTrim s.url ≠ "") (hok : r.ok = true)
    (hbody : r.body = ParsedBody.obj d content)
    (hbad : content = none ∨ content = some ContentVal.nonString ∨
            content = some (ContentVal.str "")) :
    doScrape s (FetchOutcome.resp r) =
      ({ s with isScraping := false },
       [Ev.setBusy true, Ev.request (jsTrim s.url),
        Ev.toastError "Invalid response from server", Ev.setBusy false]) := by
  unfold doScrape
  rw [if_neg hurl]
  rcases r with ⟨ok, statusText, body⟩
  dsimp only at hok hbody
  subst hok
  subst hbody
  rcases hbad with rfl | rfl | rfl <;> rfl

/-- Witness for C5 with a missing `content` field. -/
theorem doScrape_invalid_content_witness :
    doScrape { code := "old", url := "http://x", stack := some Stack.HTML_TAILWIND,
               isDraggingFile := false, isScraping := false }
      (FetchOutcome.resp { ok := true, statusText := "OK",
                           body := ParsedBody.obj none none }) =
      ({ code := "old", url := "http://x", stack := some Stack.HTML_TAILWIND,
         isDraggingFile := false, isScraping := false },
       [Ev.setBusy true, Ev.request "http://x",
        Ev.toastError "Invalid response from server", Ev.setBusy false]) :=
  doScrape_invalid_content _ _ none none (by decide) rfl rfl (Or.inl rfl)

/-- C6 counterexample: a non-ok response whose parsed body has the `detail`
field present but equal to `""` does not report that detail — `err.detail ||
"Failed to scrape URL"` falls through on the empty string — so the failure
message is "Failed to scrape URL", not the detail field. -/
theorem doScrape_error_detail_cex :
    (doScrape { code := "", url := "http://x", stack := some Stack.HTML_TAILWIND,
                isDraggingFile := false, isScraping := false }
       (FetchOutcome.resp { ok := false, statusText := "Bad Request",
                            body := ParsedBody.obj (some "") none })).2 =
      [Ev.setBusy true, Ev.request "http://x",
       Ev.toastError "Failed to scrape URL", Ev.setBusy false] ∧
    ("Failed to scrape URL" : String) ≠ "" := by
  refine ⟨rfl, by decide⟩

/-- C6 amended: on a non-ok status the buffer is unchanged and the failure
message is the parsed `detail` field when it is a non-empty string; it is
the fallback "Failed to scrape URL" when `detail` is missing or empty; and
when the body is unparseable it is the HTTP status text when that is
non-empty, else the same fallback. -/
theorem doScrape_http_error_message (s : ImportState) (r : Response)
    (hurl : jsTrim s.url ≠ "") (hok : r.ok = false) :
    (doScrape s (FetchOutcome.resp r)).1.code = s.code ∧
    (doScrape s (FetchOutcome.resp r)).2 =
      [Ev.setBusy true, Ev.request (jsTrim s.url),
       Ev.toastError
         (match r.body with
          | ParsedBody.obj (some d) _ =>
              if d = "" then "Failed to scrape URL" else d
          | ParsedBody.obj none _ => "Failed to scrape URL"
          | ParsedBody.unparseable _ =>
              if r.statusText = "" then "Failed to scrape URL" else r.statusText),
       Ev.setBusy false] := by
  unfold doScrape
  rw [if_neg hurl]
  rcases r with ⟨ok, statusText, body⟩
  dsimp only at hok
  subst hok
  cases body with
  | unparseable m => exact ⟨rfl, rfl⟩
  | obj d content =>
    cases d with
    | none => exact ⟨rfl, rfl⟩
    | some m => exact ⟨rfl, rfl⟩

/-- Witness for the amended C6: a parsed body with `detail = "bad url"`
yields exactly the message "bad url", with the buffer untouched. -/
theorem doScrape_http_error_message_witness :
    (doScrape { code := "keep", url := "http://x", stack := some Stack.HTML_TAILWIND,
                isDraggingFile := false, isScraping := false }
       (FetchOutcome.resp { ok := false, statusText := "Unprocessable Entity",
                            body := ParsedBody.obj (some "bad url") none })).1.code
      = "keep" ∧
    (doScrape { code := "keep", url := "http://x", stack := some Stack.HTML_TAILWIND,
                isDraggingFile := false, isScraping := false }
       (FetchOutcome.resp { ok := false, statusText := "Unprocessable Entity",
                            body := ParsedBody.obj (some "bad url") none })).2 =
      [Ev.setBusy true, Ev.request "http://x",
       Ev.toastError "bad url", Ev.setBusy false] := by
  have h := doScrape_http_error_message
    { code := "keep", url := "http://x", stack := some Stack.HTML_TAILWIND,
      isDraggingFile := false, isScraping := false }
    { ok := false, statusText := "Unprocessable Entity",
      body := ParsedBody.obj (some "bad url") none }
    (by decide) rfl
  exact ⟨h.1, h.2.trans (by decide)⟩

/-- C7: an empty trimmed URL aborts with "Please enter a URL to scrape"
before any side effect — no busy transition, no request, state untouched;
a non-empty trimmed URL dispatches exactly one request, carrying the
trimmed URL. -/
theorem doScrape_url_validation (s : ImportState) (fetch : FetchOutcome) :
    (jsTrim s.url = "" →
      doScrape s fetch = (s, [Ev.toastError "Please enter a URL to scrape"])) ∧
    (jsTrim s.url ≠ "" →
      List.countP (fun e => match e with | Ev.request _ => true | _ => false)
          (doScrape s fetch).2 = 1 ∧
      Ev.request (jsTrim s.url) ∈ (doScrape s fetch).2) := by
  constructor
  · intro h
    unfold doScrape
    rw [if_pos h]
  · intro h
    obtain ⟨t, hev, ⟨m, hm⟩, -⟩ := doScrape_events_shape s fetch h
    rw [hev]
    rcases hm with rfl | rfl <;>
      exact ⟨rfl, List.mem_cons_of_mem _ (List.mem_cons_self _ _)⟩

/-- Witness for C7: the empty-URL rejection at a whitespace-only URL, and the
single dispatched request on a concrete non-empty URL. -/
theorem doScrape_url_validation_witness :
    doScrape { code := "", url := "   ", stack := some Stack.HTML_TAILWIND,
               isDraggingFile := false, isScraping := false }
      (FetchOutcome.throws FetchExc.notError) =
      ({ code := "", url := "   ", stack := some Stack.HTML_TAILWIND,
         isDraggingFile := false, isScraping := false },
       [Ev.toastError "Please enter a URL to scrape"]) ∧
    Ev.request "http://x" ∈
      (doScrape { code := "", url := " http://x ", stack := some Stack.HTML_TAILWIND,
                  isDraggingFile := false, isScraping := false }
        (FetchOutcome.throws FetchExc.notError)).2 := by
  constructor
  · exact (doScrape_url_validation _ _).1 (by decide)
  · have h := ((doScrape_url_validation
      { code := "", url := " http://x ", stack := some Stack.HTML_TAILWIND,
        isDraggingFile := false, isScraping := false }
      (FetchOutcome.throws FetchExc.notError)).2 (by decide)).2
    simpa using h
